import Mathlib

/-!
Shallow embedding of the `MapSummaryGeneration` TypeScript module
(`map-summary-generation.ts`): the statistics engine (`sumRegion`,
`calculateMedian`), the fallback generator (`generateFallbackSummary`,
`getSeverityDescription`), the rule-based output validator
(`validateSummary` and its sub-checks), and the retry/fallback
orchestration loop of `summariseWithAI`.

Modelling conventions:
* JavaScript numbers that carry pain scores are modelled as `ℚ`
  (the scores and medians arising here are integers or half-integers,
  on which rational arithmetic agrees exactly with IEEE doubles);
  counts are `Nat`; `Date` values are modelled by their epoch-millisecond
  integer (`Int`), which is all the code reads from them
  (`getTime()`-based sorting and min/max).
* JavaScript strings are modelled by Lean `String`
  (`toLowerCase` by ASCII lowering, `includes` by substring search on
  the character list); all strings occurring in the module are ASCII.
* The external Gemini capability is abstracted as an oracle
  `Nat → GenResult` giving each attempt outcome, exactly as the spec
  treats it (`generate(prompt) -> text | error`); console logging and
  the inter-attempt delays are side effects with no influence on the
  returned value and are not modelled.
-/

namespace MapSummary

/-- Model of `String.prototype.toLowerCase` for ASCII strings:
lower every character. -/
def toLowerStr (s : String) : String :=
  ⟨s.data.map Char.toLower⟩

/-- Model of `String.prototype.includes`: `pat` occurs as a contiguous
substring of `s`. -/
def containsSubstr (s pat : String) : Bool :=
  (List.tails s.data).any (fun t => List.isPrefixOf pat.data t)

/-- Interface `BodyMap`: one pain-log entry. -/
structure BodyMap where
  region : String
  painScore : ℚ
  timestamp : Int
  deriving Repr, DecidableEq

/-- The `dateRange` component of a `RegionSummary`. -/
structure DateRange where
  start : Int
  «end» : Int
  deriving Repr, DecidableEq

/-- Interface `RegionSummary`: computed statistics for a region/period. -/
structure RegionSummary where
  region : String
  period : String
  frequency : Nat
  medianScore : ℚ
  totalEntries : Nat
  dateRange : Option DateRange
  deriving Repr, DecidableEq

/-- Interface `PainDataMaps`: entries keyed by period label, modelled as
an association list (`maps[period] || []` becomes a lookup with default). -/
def PainDataMaps : Type := List (String × List BodyMap)

/-- Insert a value into an ascending-sorted list, keeping it sorted. -/
def insertSorted {α : Type} [LinearOrder α] (x : α) : List α → List α
  | [] => [x]
  | y :: ys => if x ≤ y then x :: y :: ys else y :: insertSorted x ys

/-- Model of `Array.prototype.sort` with the ascending numeric comparator
`(a, b) => a - b`: sort into ascending order (insertion sort; stability
is irrelevant because only the values are read afterwards). -/
def sortAsc {α : Type} [LinearOrder α] (l : List α) : List α :=
  l.foldr insertSorted []

/-- Method `calculateMedian`: median of an already ascending-sorted
array, `0` for the empty array; for even length the arithmetic mean of
the two middle elements, for odd length the middle element. -/
def calculateMedian (sortedArray : List ℚ) : ℚ :=
  let length := sortedArray.length
  if length = 0 then 0
  else
    let middle := length / 2
    if length % 2 = 0 then
      (sortedArray.getD (middle - 1) 0 + sortedArray.getD middle 0) / 2
    else
      sortedArray.getD middle 0

/-- Method `sumRegion`: filter the period entries to the requested
region (exact string equality), and compute frequency, median score and
date range. -/
def sumRegion (period : String) (maps : PainDataMaps) (region : String) :
    RegionSummary :=
  let periodData := (List.lookup period maps).getD []
  let regionData := periodData.filter (fun entry => entry.region == region)
  if regionData.length = 0 then
    { region := region, period := period, frequency := 0, medianScore := 0,
      totalEntries := 0, dateRange := none }
  else
    let frequency := regionData.length
    let scores := sortAsc (regionData.map (fun entry => entry.painScore))
    let medianScore := calculateMedian scores
    let timestamps := sortAsc (regionData.map (fun entry => entry.timestamp))
    let dateRange : Option DateRange :=
      if timestamps.length > 0 then
        some { start := timestamps.headD 0, «end» := timestamps.getLastD 0 }
      else none
    { region := region, period := period, frequency := frequency,
      medianScore := medianScore, totalEntries := regionData.length,
      dateRange := dateRange }

/-- Textbook median, written from the words of the spec: sort the
severities ascending; an odd count takes the middle element, an even
count the arithmetic mean of the two middle elements (`0` when nothing
matches). -/
def textbookMedian (l : List ℚ) : ℚ :=
  let s := sortAsc l
  if l.length = 0 then 0
  else if l.length % 2 = 1 then s.getD (l.length / 2) 0
  else (s.getD (l.length / 2 - 1) 0 + s.getD (l.length / 2) 0) / 2

/-- The entries of `maps[period]` whose region equals `region` exactly:
the entries `sumRegion` aggregates. -/
def matchingEntries (period : String) (maps : PainDataMaps) (region : String) :
    List BodyMap :=
  ((List.lookup period maps).getD []).filter (fun entry => entry.region == region)

/-- The ASCII apostrophe character (code 39), used by the fallback text. -/
def apostrophe : String := String.mk [Char.ofNat 39]

/-- Model of JavaScript template interpolation of a number
(the shortest round-trip decimal): integers print without a point, and
a rational with a terminating decimal expansion prints as that exact
expansion with no trailing zeros. All numbers interpolated by the
module (scores 0 to 10 and their medians, hence integers or
half-integers) are of this shape; a non-terminating rational (never
produced here) falls back to a fraction rendering. -/
def jsNumToString (q : ℚ) : String :=
  match (List.range (q.den + 1)).find? (fun k => (10 ^ k) % q.den == 0) with
  | some k =>
    let n : Int := q.num * (((10 ^ k) / q.den : Nat) : Int)
    if k = 0 then toString n
    else
      let ds := (toString n.natAbs).data
      let ds := if ds.length ≤ k then List.replicate (k + 1 - ds.length) '0' ++ ds else ds
      String.mk ((if q.num < 0 then ['-'] else []) ++
        ds.take (ds.length - k) ++ '.' :: ds.drop (ds.length - k))
  | none => toString q.num ++ "/" ++ toString q.den

/-- Method `getSeverityDescription`: the severity band of a score. -/
def getSeverityDescription (score : ℚ) : String :=
  if score ≤ 2 then "mild"
  else if score ≤ 4 then "moderate"
  else if score ≤ 6 then "moderate to severe"
  else if score ≤ 8 then "severe"
  else "very severe"

/-- Method `generateFallbackSummary`: the deterministic fallback text
used when generation or validation exhausts retries. -/
def generateFallbackSummary (period region : String) (frequency : Nat)
    (medianScore : ℚ) : String :=
  if frequency = 0 then
    "You haven" ++ apostrophe ++ "t logged any pain data for your " ++
      toLowerStr region ++ " during " ++ toLowerStr period ++
      " yet. When you start tracking this region, your data will appear here."
  else
    let severity := getSeverityDescription medianScore
    let frequencyDesc := if frequency = 1 then "entry" else "entries"
    "During " ++ toLowerStr period ++ ", you recorded " ++ toString frequency ++
      " pain " ++ frequencyDesc ++ " for your " ++ toLowerStr region ++
      ", with a median pain level of " ++ jsNumToString medianScore ++
      "/10 (" ++ severity ++ "). This data helps track your pain patterns over time."

/-- Severity band as the spec words it: fixed thresholds 2, 4, 6, 8
separating mild, moderate, moderate to severe, severe, very severe. -/
def severityBandSpec (score : ℚ) : String :=
  if score ≤ 2 then "mild"
  else if score ≤ 4 then "moderate"
  else if score ≤ 6 then "moderate to severe"
  else if score ≤ 8 then "severe"
  else "very severe"

/-- Fallback text as the spec words it: a fixed not-yet-logged phrasing
for frequency zero, otherwise the template sentence with the lowercased
period, the frequency with singular or plural noun, the lowercased
region, and the median score annotated with its severity band. -/
def fallbackSpec (period region : String) (frequency : Nat)
    (medianScore : ℚ) : String :=
  if frequency = 0 then
    "You haven" ++ apostrophe ++ "t logged any pain data for your " ++
      toLowerStr region ++ " during " ++ toLowerStr period ++
      " yet. When you start tracking this region, your data will appear here."
  else
    "During " ++ toLowerStr period ++ ", you recorded " ++ toString frequency ++
      " pain " ++ (if frequency = 1 then "entry" else "entries") ++
      " for your " ++ toLowerStr region ++
      ", with a median pain level of " ++ jsNumToString medianScore ++
      "/10 (" ++ severityBandSpec medianScore ++
      "). This data helps track your pain patterns over time."

/-- The fixed catalogue of common body regions checked for
hallucinations in `validateRegionMention`. -/
def bodyRegions : List String := [
  "lower back", "upper back", "back", "neck", "shoulder", "shoulders",
  "arm", "arms", "elbow", "elbows", "wrist", "wrists", "hand", "hands",
  "hip", "hips", "knee", "knees", "ankle", "ankles", "foot", "feet",
  "leg", "legs", "chest", "abdomen", "head", "jaw", "face"]

/-- The filter predicate of `validateRegionMention`: a catalogued
region counts as hallucinated when it is neither a substring of the
expected region nor a superstring of it, yet occurs in the summary
(all comparisons on lowercased text). -/
def regionHallucinationHit (summaryLower expectedRegionLower region : String) :
    Bool :=
  let regionLower := toLowerStr region
  if containsSubstr expectedRegionLower regionLower ||
      containsSubstr regionLower expectedRegionLower then
    false
  else
    containsSubstr summaryLower regionLower

/-- Method `validateRegionMention`: `none` when valid, `some` the error
message when a catalogued region other than (and not substring-related
to) the expected one appears in the summary. -/
def validateRegionMention (summary expectedRegion : String) : Option String :=
  let summaryLower := toLowerStr summary
  let expectedRegionLower := toLowerStr expectedRegion
  let expectedMentioned := containsSubstr summaryLower expectedRegionLower
  let hallucinatedRegions :=
    bodyRegions.filter (regionHallucinationHit summaryLower expectedRegionLower)
  if !expectedMentioned && hallucinatedRegions.isEmpty then
    none
  else if !hallucinatedRegions.isEmpty then
    some ("Hallucinated region(s) detected: \"" ++
      String.intercalate "\", \"" hallucinatedRegions ++
      "\" (expected only \"" ++ expectedRegion ++ "\")")
  else
    none

/-- The number words `zero` through `ten` used by
`validateNumericalData`; any larger index is out of range
(`undefined` in the source, removed by its `filter(Boolean)`). -/
def numberWords : List String :=
  ["zero", "one", "two", "three", "four", "five", "six", "seven",
   "eight", "nine", "ten"]

/-- Model of `Math.round`: round half toward positive infinity,
computed as the floor of `q + 1/2` on exact rationals. -/
def jsRound (q : ℚ) : Int := (2 * q.num + q.den).fdiv (2 * q.den)

/-- Result of `validateNumericalData`. -/
structure NumericalCheck where
  frequencyFound : Bool
  medianFound : Bool
  deriving Repr, DecidableEq

/-- Method `validateNumericalData`: whether a recognizable form of the
frequency and of the median score occurs in the summary. The regular
expression `frequencyPattern` the source constructs is never applied;
the substring variation lists below are the check actually used. -/
def validateNumericalData (summary : String) (frequency : Nat)
    (medianScore : ℚ) : NumericalCheck :=
  let summaryLower := toLowerStr summary
  let frequencyVariations :=
    [toString frequency,
     toString frequency ++ " time",
     toString frequency ++ " entr",
     toString frequency ++ " occurrence",
     toString frequency ++ " instance"] ++
    (numberWords.get? frequency).toList
  let frequencyFound := frequencyVariations.any (fun variation =>
    containsSubstr summaryLower (toLowerStr variation))
  let medianInt := jsRound medianScore
  let medianPatterns :=
    [jsNumToString medianScore,
     toString medianInt,
     jsNumToString medianScore ++ "/10",
     toString medianInt ++ "/10",
     jsNumToString medianScore ++ " out of 10",
     toString medianInt ++ " out of 10"] ++
    (if medianInt < 0 then [] else (numberWords.get? medianInt.toNat).toList)
  let medianFound := medianPatterns.any (fun pattern =>
    containsSubstr summaryLower (toLowerStr pattern))
  { frequencyFound := frequencyFound, medianFound := medianFound }

/-- Word characters in the sense of the regular-expression class used
for word boundaries: ASCII letters, digits and underscore. -/
def isWordChar (c : Char) : Bool := c.isAlpha || c.isDigit || c == '_'

/-- A word boundary holds before a position whose preceding character
(`none` at the start of the string) is not a word character. -/
def boundaryBefore : Option Char → Bool
  | none => true
  | some c => !isWordChar c

/-- A word boundary holds after a position whose following character is
absent or not a word character. -/
def boundaryAfter : List Char → Bool
  | [] => true
  | c :: _ => !isWordChar c

/-- Whether the word `w` matches at the current position, with word
boundaries on both sides. -/
def wbMatchAt (w : List Char) (prev : Option Char) (s : List Char) : Bool :=
  boundaryBefore prev && List.isPrefixOf w s && boundaryAfter (s.drop w.length)

/-- Scan a string for a word-boundary-delimited occurrence of `w`,
remembering the previously consumed character. -/
def wbSearch (w : List Char) : Option Char → List Char → Bool
  | prev, [] => wbMatchAt w prev []
  | prev, c :: rest => wbMatchAt w prev (c :: rest) || wbSearch w (some c) rest

/-- Model of testing the regular expression built from a descriptor
word between two word boundaries against a string (the source builds
patterns such as a backslash-b-delimited word and tests them with the
case-insensitive flag against the already lowercased summary; the
descriptor words are lowercase ASCII, on which the flag is inert). -/
def wordBoundaryMatch (word : String) (s : String) : Bool :=
  wbSearch word.data none s.data

/-- Low-frequency descriptor words of `validateLogicalConsistency`. -/
def lowFrequencyDescriptors : List String :=
  ["low", "rare", "infrequent", "occasional", "few", "minimal"]

/-- Moderate-frequency descriptor words (declared by the source but
used by no check). -/
def moderateFrequencyDescriptors : List String :=
  ["moderate", "several", "some", "regular"]

/-- High-frequency descriptor words of `validateLogicalConsistency`. -/
def highFrequencyDescriptors : List String :=
  ["high", "frequent", "often", "many", "numerous", "considerable"]

/-- Low-severity descriptor words of `validateLogicalConsistency`. -/
def lowSeverityDescriptors : List String :=
  ["mild", "slight", "minimal", "minor"]

/-- Moderate-severity descriptor words (declared by the source but used
by no check). -/
def moderateSeverityDescriptors : List String :=
  ["moderate", "noticeable", "significant"]

/-- High-severity descriptor words of `validateLogicalConsistency`. -/
def highSeverityDescriptors : List String :=
  ["severe", "intense", "extreme", "major", "substantial"]

/-- Warning text for a low frequency described with a high-band word. -/
def freqHighWarning (frequency : Nat) : String :=
  "Inconsistent frequency: frequency is " ++ toString frequency ++
    " (low) but summary uses \"high\" descriptor"

/-- Warning text for a high frequency described with a low-band word. -/
def freqLowWarning (frequency : Nat) : String :=
  "Inconsistent frequency: frequency is " ++ toString frequency ++
    " (high) but summary uses \"low\" descriptor"

/-- Warning text for a mild median described with a severe-band word. -/
def sevHighWarning (medianScore : ℚ) : String :=
  "Inconsistent severity: median score is " ++ jsNumToString medianScore ++
    "/10 (mild) but summary uses \"severe\" descriptor"

/-- Warning text for a severe median described with a mild-band word. -/
def sevLowWarning (medianScore : ℚ) : String :=
  "Inconsistent severity: median score is " ++ jsNumToString medianScore ++
    "/10 (severe) but summary uses \"mild\" descriptor"

/-- Method `validateLogicalConsistency`: warnings (never errors) when a
descriptor word of the band opposite to the supplied statistics occurs
word-boundary-delimited in the summary. -/
def validateLogicalConsistency (summary : String) (frequency : Nat)
    (medianScore : ℚ) : List String :=
  let summaryLower := toLowerStr summary
  (if frequency ≤ 2 then
    if highFrequencyDescriptors.any (fun desc => wordBoundaryMatch desc summaryLower)
    then [freqHighWarning frequency] else []
  else if 7 ≤ frequency then
    if lowFrequencyDescriptors.any (fun desc => wordBoundaryMatch desc summaryLower)
    then [freqLowWarning frequency] else []
  else []) ++
  (if medianScore ≤ 3 then
    if highSeverityDescriptors.any (fun desc => wordBoundaryMatch desc summaryLower)
    then [sevHighWarning medianScore] else []
  else if 7 ≤ medianScore then
    if lowSeverityDescriptors.any (fun desc => wordBoundaryMatch desc summaryLower)
    then [sevLowWarning medianScore] else []
  else [])

/-- Phrase catalogue of `checkForMedicalAdvice`. -/
def medicalAdvicePhrases : List String :=
  ["should see a doctor", "consult a physician", "seek medical attention",
   "recommend treatment", "diagnosis", "prescribe", "medication",
   "you should take", "try this treatment", "this indicates",
   "this suggests you have", "you may have", "likely suffering from",
   "probably have", "could be a sign of"]

/-- Method `checkForMedicalAdvice`: the catalogued phrases found as
substrings of the lowercased summary. -/
def checkForMedicalAdvice (summary : String) : List String :=
  let summaryLower := toLowerStr summary
  medicalAdvicePhrases.filter (fun phrase => containsSubstr summaryLower phrase)

/-- Interface `ValidationResult`. -/
structure ValidationResult where
  isValid : Bool
  errors : List String
  warnings : List String
  deriving Repr, DecidableEq

/-- Error text for a missing frequency mention. -/
def missingFrequencyError (frequency : Nat) : String :=
  "Missing frequency data: Expected mention of " ++ toString frequency ++
    " entries/occurrences"

/-- Error text for a missing median score mention. -/
def missingMedianError (medianScore : ℚ) : String :=
  "Missing median score data: Expected mention of score " ++
    jsNumToString medianScore ++ "/10"

/-- Error text for a summary under 20 characters. -/
def tooShortError : String := "Summary too short (less than 20 characters)"

/-- Warning text for a summary over 1000 characters. -/
def tooVerboseWarning : String :=
  "Summary might be too verbose (over 1000 characters)"

/-- Warning text naming detected medical-advice phrases. -/
def medicalAdviceWarning (phrases : List String) : String :=
  "Possible medical advice detected: \"" ++
    String.intercalate "\", \"" phrases ++ "\""

/-- The errors `validateSummary` accumulates, in push order: region
hallucination, missing frequency, missing median, too short. The
logical-consistency check contributes nothing here. -/
def validationErrors (summary region : String) (frequency : Nat)
    (medianScore : ℚ) : List String :=
  (validateRegionMention summary region).toList ++
  (let numerical := validateNumericalData summary frequency medianScore
   (if numerical.frequencyFound then [] else [missingFrequencyError frequency]) ++
   (if numerical.medianFound then [] else [missingMedianError medianScore])) ++
  (if summary.length < 20 then [tooShortError] else [])

/-- The warnings `validateSummary` accumulates, in push order: logical
consistency, medical advice, too verbose. -/
def validationWarnings (summary : String) (frequency : Nat)
    (medianScore : ℚ) : List String :=
  validateLogicalConsistency summary frequency medianScore ++
  (let advicePhrases := checkForMedicalAdvice summary
   if advicePhrases.isEmpty then [] else [medicalAdviceWarning advicePhrases]) ++
  (if 1000 < summary.length then [tooVerboseWarning] else [])

/-- Method `validateSummary`: runs the five checks and aggregates the
verdict; `isValid` holds exactly when the error list is empty (the
`period` parameter is accepted but read by no check, as in the source). -/
def validateSummary (summary region : String) (frequency : Nat)
    (medianScore : ℚ) ( _period : String) : ValidationResult :=
  { isValid := (validationErrors summary region frequency medianScore).isEmpty,
    errors := validationErrors summary region frequency medianScore,
    warnings := validationWarnings summary frequency medianScore }

/-- Outcome of one invocation of the external generation capability:
either the produced text, or the message of the error thrown by
`callGeminiAPI` (transport failure or empty response). -/
inductive GenResult where
  | success (text : String)
  | failure (message : String)
  deriving Repr, DecidableEq

/-- Result of a `summariseWithAI` run: the returned string or the
thrown error, together with the number of capability invocations. -/
structure RunOutcome where
  result : Except String String
  calls : Nat
  deriving Repr

/-- Model of the JavaScript expression `x || d` applied to an optional
number option: `undefined` and `0` are falsy and give the default. -/
def jsOrNat (v : Option Nat) (dflt : Nat) : Nat :=
  match v with
  | none => dflt
  | some n => if n = 0 then dflt else n

/-- Interface `Config` (the `apiKey` is consumed only by the abstracted
capability). -/
structure Config where
  apiKey : String
  maxRetries : Option Nat
  retryDelay : Option Nat

/-- The per-instance fields the `MapSummaryGeneration` constructor
stores. -/
structure GeneratorState where
  apiKey : String
  maxRetries : Nat
  retryDelay : Nat
  deriving Repr, DecidableEq

/-- The `MapSummaryGeneration` constructor: coalesces the config values
with `||`, so an absent or zero `maxRetries` becomes 3 and an absent or
zero `retryDelay` becomes 1000. -/
def mkGenerator (config : Config) : GeneratorState :=
  { apiKey := config.apiKey,
    maxRetries := jsOrNat config.maxRetries 3,
    retryDelay := jsOrNat config.retryDelay 1000 }

/-- Interface `SummaryOptions`; the tone and audience fields are
omitted, as they shape only the prompt text consumed by the abstracted
generation capability. -/
structure SummaryOptions where
  maxRetries : Option Nat
  retryDelay : Option Nat
  fallbackEnabled : Option Bool
  enableValidation : Option Bool

/-- The retry loop of `summariseWithAI`, one recursive step per loop
iteration: `attempt` is the 1-indexed loop counter and `remaining` the
number of iterations the `for` bound still allows (the loop runs with
`remaining = maxRetries` initially, so the bound `attempt ≤ maxRetries`
is mirrored by `remaining` reaching zero, where the source falls out of
the loop and throws its unreachable-state error). Each step consults
the capability oracle for that attempt; a validation failure retries or
falls back or falls through to returning the candidate exactly as the
source branches do, and a capability failure retries, falls back or
rethrows. `calls` counts the capability invocations performed. -/
def summariseLoop (gen : Nat → GenResult) (period region : String)
    (frequency : Nat) (medianScore : ℚ) (maxRetries : Nat)
    (enableValidation fallbackEnabled : Bool) : Nat → Nat → RunOutcome
  | _, 0 => ⟨Except.error "Unexpected error in summariseWithAI", 0⟩
  | attempt, remaining + 1 =>
    match gen attempt with
    | GenResult.success summary =>
      if enableValidation then
        let validation := validateSummary summary region frequency medianScore period
        if validation.isValid then
          ⟨Except.ok summary, 1⟩
        else
          if 0 < validation.errors.length ∧ attempt < maxRetries then
            let rest := summariseLoop gen period region frequency medianScore
              maxRetries enableValidation fallbackEnabled (attempt + 1) remaining
            ⟨rest.result, rest.calls + 1⟩
          else if 0 < validation.errors.length ∧ fallbackEnabled = true then
            ⟨Except.ok (generateFallbackSummary period region frequency medianScore), 1⟩
          else
            ⟨Except.ok summary, 1⟩
      else
        ⟨Except.ok summary, 1⟩
    | GenResult.failure message =>
      if attempt = maxRetries then
        if fallbackEnabled then
          ⟨Except.ok (generateFallbackSummary period region frequency medianScore), 1⟩
        else
          ⟨Except.error ("Failed to generate summary after " ++ toString maxRetries ++
            " attempts: " ++ message), 1⟩
      else
        let rest := summariseLoop gen period region frequency medianScore
          maxRetries enableValidation fallbackEnabled (attempt + 1) remaining
        ⟨rest.result, rest.calls + 1⟩

/-- Method `summariseWithAI`: resolves the effective options (zero and
absent `maxRetries` and `retryDelay` coalesce to the instance values;
`fallbackEnabled` and `enableValidation` default to true unless
explicitly false) and runs the retry loop from attempt 1. The delays
between attempts influence timing only, never the returned value. -/
def summariseWithAI (state : GeneratorState) (period region : String)
    (frequency : Nat) (medianScore : ℚ) (options : SummaryOptions)
    (gen : Nat → GenResult) : RunOutcome :=
  let maxRetries := jsOrNat options.maxRetries state.maxRetries
  let _retryDelay := jsOrNat options.retryDelay state.retryDelay
  let fallbackEnabled := !(options.fallbackEnabled == some false)
  let enableValidation := !(options.enableValidation == some false)
  summariseLoop gen period region frequency medianScore maxRetries
    enableValidation fallbackEnabled 1 maxRetries

theorem insertSorted_length {α : Type} [LinearOrder α] (x : α) (l : List α) :
    (insertSorted x l).length = l.length + 1 := by
  induction l with
  | nil => rfl
  | cons y ys ih =>
    simp only [insertSorted]
    split
    · simp
    · simp [ih]

theorem sortAsc_length {α : Type} [LinearOrder α] (l : List α) :
    (sortAsc l).length = l.length := by
  induction l with
  | nil => rfl
  | cons x xs ih =>
    simp only [sortAsc, List.foldr] at *
    rw [insertSorted_length, ih, List.length_cons]

theorem calculateMedian_sortAsc (l : List ℚ) :
    calculateMedian (sortAsc l) = textbookMedian l := by
  unfold calculateMedian textbookMedian
  simp only [sortAsc_length]
  rcases Nat.eq_zero_or_pos l.length with h | h
  · simp [h]
  · have hne : ¬ l.length = 0 := Nat.pos_iff_ne_zero.mp h
    simp only [hne, if_false]
    rcases Nat.mod_two_eq_zero_or_one l.length with h2 | h2
    · have : ¬ l.length % 2 = 1 := by omega
      simp [h2, this]
    · have : ¬ l.length % 2 = 0 := by omega
      simp [h2, this]

/-- C3: for every period, entry mapping and region, `sumRegion` returns
`frequency` equal to the count of entries under that period whose region
string equals the requested region exactly, and `medianScore` equal to
the textbook median of the matching severities (middle element for an
odd count, arithmetic mean of the two middle elements for an even
count, over the ascending sort). -/
theorem sumRegion_frequency_and_median (period : String) (maps : PainDataMaps)
    (region : String) :
    (sumRegion period maps region).frequency =
      (matchingEntries period maps region).length
    ∧ (sumRegion period maps region).medianScore =
      textbookMedian
        ((matchingEntries period maps region).map (fun entry => entry.painScore)) := by
  unfold sumRegion matchingEntries
  set rd := ((List.lookup period maps).getD []).filter
    (fun entry => entry.region == region) with hrd
  by_cases h : rd.length = 0
  · have hnil : rd = [] := List.length_eq_zero.mp h
    constructor
    · simp [h, hnil]
    · simp [h, hnil, textbookMedian]
  · constructor
    · simp [h]
    · simp only [h, if_false]
      exact calculateMedian_sortAsc _

/-- C7: with no matching entries (including an absent period key)
`sumRegion` returns frequency 0, medianScore 0, totalEntries 0 and no
date range; and every `RegionSummary` it produces satisfies
`frequency = 0 → medianScore = 0`. -/
theorem sumRegion_zero_cases (period : String) (maps : PainDataMaps)
    (region : String) :
    (matchingEntries period maps region = [] →
      sumRegion period maps region =
        { region := region, period := period, frequency := 0, medianScore := 0,
          totalEntries := 0, dateRange := none })
    ∧ ((sumRegion period maps region).frequency = 0 →
        (sumRegion period maps region).medianScore = 0) := by
  constructor
  · intro hnil
    unfold matchingEntries at hnil
    unfold sumRegion
    simp [hnil]
  · intro hfreq
    unfold sumRegion at *
    set rd := ((List.lookup period maps).getD []).filter
      (fun entry => entry.region == region) with hrd
    by_cases h : rd.length = 0
    · simp [h]
    · simp only [h, if_false] at hfreq

/-- Witness for C7 at a concrete input: an empty mapping has no
matching entries, and the zero-frequency invariant holds there. -/
theorem sumRegion_zero_cases_witness :
    sumRegion "Last Week" ([] : PainDataMaps) "Neck" =
      { region := "Neck", period := "Last Week", frequency := 0,
        medianScore := 0, totalEntries := 0, dateRange := none }
    ∧ (sumRegion "Last Week" ([] : PainDataMaps) "Neck").medianScore = 0 :=
  ⟨(sumRegion_zero_cases "Last Week" ([] : PainDataMaps) "Neck").1 rfl,
   (sumRegion_zero_cases "Last Week" ([] : PainDataMaps) "Neck").2 rfl⟩

/-- C4: for every period, region, frequency and median score,
`generateFallbackSummary` returns exactly the deterministic text the
spec describes: the fixed not-yet-logged phrasing when the frequency is
zero, otherwise the template sentence with lowercased period, singular
or plural entry noun, lowercased region, and the median score annotated
with the fixed severity bands. -/
theorem generateFallbackSummary_matches_spec (period region : String)
    (frequency : Nat) (medianScore : ℚ) :
    generateFallbackSummary period region frequency medianScore =
      fallbackSpec period region frequency medianScore := by
  unfold generateFallbackSummary fallbackSpec getSeverityDescription severityBandSpec
  rfl

theorem isPrefixOf_of_append (a b t : List Char) :
    List.isPrefixOf (a ++ b) t = true → List.isPrefixOf a t = true := by
  induction a generalizing t with
  | nil => intro _; simp [List.isPrefixOf]
  | cons x xs ih =>
    intro h
    cases t with
    | nil => simp [List.isPrefixOf] at h
    | cons y ys =>
      simp only [List.cons_append, List.isPrefixOf, Bool.and_eq_true] at h ⊢
      exact ⟨h.1, ih ys h.2⟩

theorem string_data_append (a b : String) : (a ++ b).data = a.data ++ b.data := rfl

theorem containsSubstr_append_left (s a b : String)
    (h : containsSubstr s (a ++ b) = true) : containsSubstr s a = true := by
  unfold containsSubstr at *
  rw [List.any_eq_true] at h ⊢
  rcases h with ⟨t, ht, hp⟩
  rw [string_data_append] at hp
  exact ⟨t, ht, isPrefixOf_of_append _ _ _ hp⟩

theorem toLowerStr_append (a b : String) :
    toLowerStr (a ++ b) = toLowerStr a ++ toLowerStr b := by
  unfold toLowerStr
  rw [string_data_append, List.map_append]
  rfl

theorem toLower_digitChar (m : Nat) :
    Char.toLower (Nat.digitChar m) = Nat.digitChar m :=
  match m with
  | 0 => rfl
  | 1 => rfl
  | 2 => rfl
  | 3 => rfl
  | 4 => rfl
  | 5 => rfl
  | 6 => rfl
  | 7 => rfl
  | 8 => rfl
  | 9 => rfl
  | 10 => rfl
  | 11 => rfl
  | 12 => rfl
  | 13 => rfl
  | 14 => rfl
  | 15 => rfl
  | _ + 16 => rfl

theorem toLower_toDigitsCore (fuel n : Nat) (ds : List Char)
    (h : ds.map Char.toLower = ds) :
    (Nat.toDigitsCore 10 fuel n ds).map Char.toLower =
      Nat.toDigitsCore 10 fuel n ds := by
  induction fuel generalizing n ds with
  | zero => exact h
  | succ fuel ih =>
    unfold Nat.toDigitsCore
    dsimp only
    by_cases hz : n / 10 = 0
    · simp [hz, toLower_digitChar, h]
    · simp only [hz, if_false]
      exact ih _ _ (by simp [toLower_digitChar, h])

theorem toLowerStr_natToString (n : Nat) :
    toLowerStr (toString n) = toString n := by
  show toLowerStr (Nat.repr n) = Nat.repr n
  unfold Nat.repr Nat.toDigits List.asString toLowerStr
  exact congrArg String.mk (toLower_toDigitsCore _ _ _ rfl)

/-- C5: the region-hallucination check errors exactly when the
lowercased candidate contains a catalogued region that is neither a
substring of the expected region nor a superstring of it; in
particular, a candidate without the expected region and without any
such foreign region is accepted by the check. -/
theorem validateRegionMention_error_iff (summary expectedRegion : String) :
    ((validateRegionMention summary expectedRegion).isSome = true ↔
      ∃ region ∈ bodyRegions,
        containsSubstr (toLowerStr expectedRegion) (toLowerStr region) = false ∧
        containsSubstr (toLowerStr region) (toLowerStr expectedRegion) = false ∧
        containsSubstr (toLowerStr summary) (toLowerStr region) = true)
    ∧ (containsSubstr (toLowerStr summary) (toLowerStr expectedRegion) = false →
      (¬ ∃ region ∈ bodyRegions,
        containsSubstr (toLowerStr expectedRegion) (toLowerStr region) = false ∧
        containsSubstr (toLowerStr region) (toLowerStr expectedRegion) = false ∧
        containsSubstr (toLowerStr summary) (toLowerStr region) = true) →
      validateRegionMention summary expectedRegion = none) := by
  have hpred : ∀ region : String,
      regionHallucinationHit (toLowerStr summary) (toLowerStr expectedRegion)
          region = true ↔
        (containsSubstr (toLowerStr expectedRegion) (toLowerStr region) = false ∧
         containsSubstr (toLowerStr region) (toLowerStr expectedRegion) = false ∧
         containsSubstr (toLowerStr summary) (toLowerStr region) = true) := by
    intro region
    simp only [regionHallucinationHit]
    cases h1 : containsSubstr (toLowerStr expectedRegion) (toLowerStr region) <;>
      cases h2 : containsSubstr (toLowerStr region) (toLowerStr expectedRegion) <;>
        simp
  have hexists :
      (∃ region ∈ bodyRegions,
        containsSubstr (toLowerStr expectedRegion) (toLowerStr region) = false ∧
        containsSubstr (toLowerStr region) (toLowerStr expectedRegion) = false ∧
        containsSubstr (toLowerStr summary) (toLowerStr region) = true) ↔
      bodyRegions.filter
        (regionHallucinationHit (toLowerStr summary) (toLowerStr expectedRegion))
        ≠ [] := by
    constructor
    · rintro ⟨region, hin, hprop⟩ hnil
      have hm : region ∈ bodyRegions.filter
          (regionHallucinationHit (toLowerStr summary) (toLowerStr expectedRegion)) :=
        List.mem_filter.mpr ⟨hin, (hpred region).mpr hprop⟩
      rw [hnil] at hm
      simp at hm
    · intro hne
      rcases List.exists_mem_of_ne_nil _ hne with ⟨r, hr⟩
      rcases List.mem_filter.mp hr with ⟨hin, hhit⟩
      exact ⟨r, hin, (hpred r).mp hhit⟩
  have hres_none :
      bodyRegions.filter
        (regionHallucinationHit (toLowerStr summary) (toLowerStr expectedRegion))
        = [] →
      validateRegionMention summary expectedRegion = none := by
    intro h
    simp only [validateRegionMention]
    rw [h]
    simp
  have hres_some : ∀ (r : String) (rs : List String),
      bodyRegions.filter
        (regionHallucinationHit (toLowerStr summary) (toLowerStr expectedRegion))
        = r :: rs →
      (validateRegionMention summary expectedRegion).isSome = true := by
    intro r rs h
    simp only [validateRegionMention]
    rw [h]
    simp
  rcases hfe : bodyRegions.filter
      (regionHallucinationHit (toLowerStr summary) (toLowerStr expectedRegion))
    with _ | ⟨r, rs⟩
  · have hnone := hres_none hfe
    constructor
    · constructor
      · intro habs
        rw [hnone] at habs
        simp at habs
      · intro hex
        exact absurd hfe (hexists.mp hex)
    · intro _ _
      exact hnone
  · constructor
    · constructor
      · intro _
        exact hexists.mpr (by rw [hfe]; simp)
      · intro _
        exact hres_some r rs hfe
    · intro _ hno
      exact absurd (hexists.mpr (by rw [hfe]; simp)) hno

/-- Witness for C5 at concrete inputs: a candidate mentioning the
foreign region back while the expected region is Neck errors, and the
acceptance of a pronoun-only candidate follows from the theorem applied
at those inputs. -/
theorem validateRegionMention_error_iff_witness :
    ((validateRegionMention "Your back pain was mild." "Neck").isSome = true)
    ∧ validateRegionMention "It hurt a lot this week." "Neck" = none := by
  constructor
  · exact (validateRegionMention_error_iff "Your back pain was mild." "Neck").1.mpr
      ⟨"back", by decide, by decide, by decide, by decide⟩
  · exact (validateRegionMention_error_iff "It hurt a lot this week." "Neck").2
      (by decide) (by decide)

/-- C10: number-word recognition in `validateNumericalData` stops at
ten: for a frequency of at least 11 the frequency sub-check passes
exactly when the digit form of the frequency occurs in the lowercased
text, while for a frequency with a number word (0 through 10) the
number word alone suffices. -/
theorem validateNumericalData_number_words (summary : String) (frequency : Nat)
    (medianScore : ℚ) :
    (11 ≤ frequency →
      ((validateNumericalData summary frequency medianScore).frequencyFound = true ↔
        containsSubstr (toLowerStr summary) (toString frequency) = true))
    ∧ (∀ word, numberWords.get? frequency = some word →
        containsSubstr (toLowerStr summary) word = true →
        (validateNumericalData summary frequency medianScore).frequencyFound = true) := by
  constructor
  · intro h11
    have hnone : numberWords.get? frequency = none := by
      apply List.get?_eq_none.mpr
      simp [numberWords]
      omega
    constructor
    · intro hfound
      simp only [validateNumericalData, hnone, Option.toList_none, List.append_nil,
        List.any_cons, List.any_nil, Bool.or_eq_true, Bool.or_false] at hfound
      rcases hfound with h | h | h | h | h
      · rwa [toLowerStr_natToString] at h
      all_goals
        rw [toLowerStr_append, toLowerStr_natToString] at h
        exact containsSubstr_append_left _ _ _ h
    · intro hdig
      simp only [validateNumericalData, hnone, Option.toList_none, List.append_nil,
        List.any_cons, List.any_nil, Bool.or_eq_true, Bool.or_false]
      left
      rwa [toLowerStr_natToString]
  · intro word hword hcont
    have hlower : toLowerStr word = word := by
      have hmem : word ∈ numberWords := List.get?_mem hword
      revert hmem
      have : ∀ w ∈ numberWords, toLowerStr w = w := by decide
      exact this word
    simp only [validateNumericalData, hword, Option.toList_some,
      List.any_eq_true]
    refine ⟨word, ?_, ?_⟩
    · simp [List.mem_append]
    · rwa [hlower]

/-- Witness for C10 at concrete inputs: for frequency 11 the check
holds exactly when the digits 11 appear, and for frequency 3 the word
three alone suffices. -/
theorem validateNumericalData_number_words_witness :
    ((validateNumericalData "logged 11 entries" 11 5).frequencyFound = true)
    ∧ ((validateNumericalData "three painful episodes" 3 5).frequencyFound = true) := by
  constructor
  · exact ((validateNumericalData_number_words "logged 11 entries" 11 5).1
      (by decide)).mpr (by decide)
  · exact (validateNumericalData_number_words "three painful episodes" 3 5).2
      "three" (by decide) (by decide)

/-- C8: the logical-consistency check contributes only warnings and
never errors: the error list of `validateSummary` is exactly the
region, numeric and length errors, every consistency message lands in
the warnings, a frequency of at least 7 with a word-boundary match of
rare yields the frequency-inconsistency warning, a median of at most 3
with a word-boundary match of severe yields the severity-inconsistency
warning, and a text embedding those descriptors inside longer words
(rarely, persevered) triggers neither. -/
theorem validateLogicalConsistency_warnings_only (summary region : String)
    (frequency : Nat) (medianScore : ℚ) (period : String) :
    ((validateSummary summary region frequency medianScore period).errors =
      validationErrors summary region frequency medianScore)
    ∧ (∀ msg ∈ validateLogicalConsistency summary frequency medianScore,
        msg ∈ (validateSummary summary region frequency medianScore period).warnings)
    ∧ (7 ≤ frequency →
        wordBoundaryMatch "rare" (toLowerStr summary) = true →
        freqLowWarning frequency ∈
          (validateSummary summary region frequency medianScore period).warnings)
    ∧ (medianScore ≤ 3 →
        wordBoundaryMatch "severe" (toLowerStr summary) = true →
        sevHighWarning medianScore ∈
          (validateSummary summary region frequency medianScore period).warnings)
    ∧ validateLogicalConsistency "Pain was rarely logged and we persevered." 7 3
        = [] := by
  refine ⟨rfl, ?_, ?_, ?_, by decide⟩
  · intro msg hmsg
    simp only [validateSummary, validationWarnings, List.mem_append]
    exact Or.inl (Or.inl hmsg)
  · intro h7 hrare
    have hf2 : ¬ frequency ≤ 2 := by omega
    have hany : lowFrequencyDescriptors.any
        (fun desc => wordBoundaryMatch desc (toLowerStr summary)) = true := by
      rw [List.any_eq_true]
      refine ⟨"rare", ?_, hrare⟩
      simp [lowFrequencyDescriptors]
    simp [validateSummary, validationWarnings, validateLogicalConsistency,
      hf2, h7, hany]
  · intro hm3 hsevere
    have hany : highSeverityDescriptors.any
        (fun desc => wordBoundaryMatch desc (toLowerStr summary)) = true := by
      rw [List.any_eq_true]
      refine ⟨"severe", ?_, hsevere⟩
      simp [highSeverityDescriptors]
    simp [validateSummary, validationWarnings, validateLogicalConsistency,
      hm3, hany]

/-- Witness for C8 at concrete inputs: for a candidate using rare and
severe as whole words with frequency 7 and median 3, both
inconsistency warnings are present. -/
theorem validateLogicalConsistency_warnings_only_witness :
    freqLowWarning 7 ∈
      (validateSummary "Pain was rare and severe." "Neck" 7 3 "Last Week").warnings
    ∧ sevHighWarning 3 ∈
      (validateSummary "Pain was rare and severe." "Neck" 7 3 "Last Week").warnings :=
  ⟨(validateLogicalConsistency_warnings_only "Pain was rare and severe." "Neck"
      7 3 "Last Week").2.2.1 (by decide) (by decide),
   (validateLogicalConsistency_warnings_only "Pain was rare and severe." "Neck"
      7 3 "Last Week").2.2.2.1 (by decide) (by decide)⟩

theorem validateSummary_isValid_false (t region : String) (frequency : Nat)
    (medianScore : ℚ) (period : String)
    (herr : (validateSummary t region frequency medianScore period).errors ≠ []) :
    (validateSummary t region frequency medianScore period).isValid = false := by
  simp only [validateSummary] at *
  rw [List.isEmpty_eq_false]
  exact herr

theorem validateSummary_errors_length_pos (t region : String) (frequency : Nat)
    (medianScore : ℚ) (period : String)
    (herr : (validateSummary t region frequency medianScore period).errors ≠ []) :
    0 < (validateSummary t region frequency medianScore period).errors.length :=
  List.length_pos.mpr herr

theorem summariseLoop_invalid_retry (gen : Nat → GenResult)
    (period region : String) (frequency : Nat) (medianScore : ℚ)
    (maxRetries : Nat) (fallbackEnabled : Bool) (attempt remaining : Nat)
    (t : String) (hg : gen attempt = GenResult.success t)
    (herr : (validateSummary t region frequency medianScore period).errors ≠ [])
    (hlt : attempt < maxRetries) :
    summariseLoop gen period region frequency medianScore maxRetries true
        fallbackEnabled attempt (remaining + 1) =
      ⟨(summariseLoop gen period region frequency medianScore maxRetries true
          fallbackEnabled (attempt + 1) remaining).result,
       (summariseLoop gen period region frequency medianScore maxRetries true
          fallbackEnabled (attempt + 1) remaining).calls + 1⟩ := by
  have hinv := validateSummary_isValid_false t region frequency medianScore period herr
  have hlen := validateSummary_errors_length_pos t region frequency medianScore period herr
  simp [summariseLoop, hg, hinv, hlen, hlt]

theorem summariseLoop_invalid_last_fallback (gen : Nat → GenResult)
    (period region : String) (frequency : Nat) (medianScore : ℚ)
    (maxRetries : Nat) (attempt remaining : Nat)
    (t : String) (hg : gen attempt = GenResult.success t)
    (herr : (validateSummary t region frequency medianScore period).errors ≠ [])
    (hnlt : ¬ attempt < maxRetries) :
    summariseLoop gen period region frequency medianScore maxRetries true
        true attempt (remaining + 1) =
      ⟨Except.ok (generateFallbackSummary period region frequency medianScore), 1⟩ := by
  have hinv := validateSummary_isValid_false t region frequency medianScore period herr
  have hlen := validateSummary_errors_length_pos t region frequency medianScore period herr
  simp [summariseLoop, hg, hinv, hlen, hnlt]

theorem summariseLoop_invalid_last_nofallback (gen : Nat → GenResult)
    (period region : String) (frequency : Nat) (medianScore : ℚ)
    (maxRetries : Nat) (attempt remaining : Nat)
    (t : String) (hg : gen attempt = GenResult.success t)
    (herr : (validateSummary t region frequency medianScore period).errors ≠ [])
    (hnlt : ¬ attempt < maxRetries) :
    summariseLoop gen period region frequency medianScore maxRetries true
        false attempt (remaining + 1) = ⟨Except.ok t, 1⟩ := by
  have hinv := validateSummary_isValid_false t region frequency medianScore period herr
  simp [summariseLoop, hg, hinv, hnlt]

theorem summariseLoop_failure_retry (gen : Nat → GenResult)
    (period region : String) (frequency : Nat) (medianScore : ℚ)
    (maxRetries : Nat) (enableValidation fallbackEnabled : Bool)
    (attempt remaining : Nat) (message : String)
    (hg : gen attempt = GenResult.failure message)
    (hne : attempt ≠ maxRetries) :
    summariseLoop gen period region frequency medianScore maxRetries
        enableValidation fallbackEnabled attempt (remaining + 1) =
      ⟨(summariseLoop gen period region frequency medianScore maxRetries
          enableValidation fallbackEnabled (attempt + 1) remaining).result,
       (summariseLoop gen period region frequency medianScore maxRetries
          enableValidation fallbackEnabled (attempt + 1) remaining).calls + 1⟩ := by
  simp [summariseLoop, hg, hne]

theorem summariseLoop_valid_accept (gen : Nat → GenResult)
    (period region : String) (frequency : Nat) (medianScore : ℚ)
    (maxRetries : Nat) (fallbackEnabled : Bool) (attempt remaining : Nat)
    (t : String) (hg : gen attempt = GenResult.success t)
    (herr : (validateSummary t region frequency medianScore period).errors = []) :
    summariseLoop gen period region frequency medianScore maxRetries true
        fallbackEnabled attempt (remaining + 1) = ⟨Except.ok t, 1⟩ := by
  have hvalid : (validateSummary t region frequency medianScore period).isValid
      = true := by
    simp only [validateSummary] at *
    rw [List.isEmpty_iff]
    exact herr
  simp [summariseLoop, hg, hvalid]

theorem enableValidation_flag_true (options : SummaryOptions)
    (h : options.enableValidation ≠ some false) :
    (!(options.enableValidation == some false)) = true := by
  cases hb : options.enableValidation == some false
  · rfl
  · exact absurd (eq_of_beq hb) h

theorem fallbackEnabled_flag_true (options : SummaryOptions)
    (h : options.fallbackEnabled ≠ some false) :
    (!(options.fallbackEnabled == some false)) = true := by
  cases hb : options.fallbackEnabled == some false
  · rfl
  · exact absurd (eq_of_beq hb) h

/-- C1: with an effective attempt bound of 3, fallback enabled and
validation enabled, a run in which every candidate the capability
produces fails validation with at least one error invokes the
capability exactly 3 times and returns the deterministic fallback text
for the same inputs. -/
theorem summariseWithAI_all_invalid_falls_back (state : GeneratorState)
    (period region : String) (frequency : Nat) (medianScore : ℚ)
    (options : SummaryOptions) (gen : Nat → GenResult)
    (hmax : jsOrNat options.maxRetries state.maxRetries = 3)
    (hfb : options.fallbackEnabled ≠ some false)
    (henable : options.enableValidation ≠ some false)
    (hgen : ∀ i, 1 ≤ i → i ≤ 3 → ∃ t, gen i = GenResult.success t ∧
        (validateSummary t region frequency medianScore period).errors ≠ []) :
    summariseWithAI state period region frequency medianScore options gen =
      ⟨Except.ok (generateFallbackSummary period region frequency medianScore),
       3⟩ := by
  obtain ⟨t1, hg1, he1⟩ := hgen 1 (by omega) (by omega)
  obtain ⟨t2, hg2, he2⟩ := hgen 2 (by omega) (by omega)
  obtain ⟨t3, hg3, he3⟩ := hgen 3 (by omega) (by omega)
  have s1 := summariseLoop_invalid_retry gen period region frequency medianScore
    3 true 1 2 t1 hg1 he1 (by omega)
  have s2 := summariseLoop_invalid_retry gen period region frequency medianScore
    3 true 2 1 t2 hg2 he2 (by omega)
  have s3 := summariseLoop_invalid_last_fallback gen period region frequency
    medianScore 3 3 0 t3 hg3 he3 (by omega)
  norm_num at s1 s2 s3
  simp only [summariseWithAI]
  rw [enableValidation_flag_true options henable,
    fallbackEnabled_flag_true options hfb, hmax]
  rw [s1, s2, s3]

/-- Witness for C1 at concrete inputs: a capability stub that always
produces an invalid candidate makes the run return the fallback text
after exactly 3 invocations. -/
theorem summariseWithAI_all_invalid_falls_back_witness :
    summariseWithAI
        (mkGenerator { apiKey := "key", maxRetries := none, retryDelay := none })
        "Last Week" "Neck" 5 5
        { maxRetries := none, retryDelay := none, fallbackEnabled := none,
          enableValidation := none }
        (fun _ => GenResult.success "bad") =
      ⟨Except.ok (generateFallbackSummary "Last Week" "Neck" 5 5), 3⟩ :=
  summariseWithAI_all_invalid_falls_back
    (mkGenerator { apiKey := "key", maxRetries := none, retryDelay := none })
    "Last Week" "Neck" 5 5
    { maxRetries := none, retryDelay := none, fallbackEnabled := none,
      enableValidation := none }
    (fun _ => GenResult.success "bad")
    rfl (by decide) (by decide)
    (fun i _ _ => ⟨"bad", rfl, by decide⟩)

/-- C6: when the first candidate verdict has no errors (whatever its
warnings), the run returns that candidate text verbatim after a single
capability invocation. -/
theorem summariseWithAI_accepts_first_valid (state : GeneratorState)
    (period region : String) (frequency : Nat) (medianScore : ℚ)
    (options : SummaryOptions) (gen : Nat → GenResult) (t : String)
    (henable : options.enableValidation ≠ some false)
    (hmax : 1 ≤ jsOrNat options.maxRetries state.maxRetries)
    (hg : gen 1 = GenResult.success t)
    (herr : (validateSummary t region frequency medianScore period).errors = []) :
    summariseWithAI state period region frequency medianScore options gen =
      ⟨Except.ok t, 1⟩ := by
  obtain ⟨k, hk⟩ : ∃ k, jsOrNat options.maxRetries state.maxRetries = k + 1 :=
    ⟨jsOrNat options.maxRetries state.maxRetries - 1, by omega⟩
  simp only [summariseWithAI]
  rw [enableValidation_flag_true options henable, hk]
  exact summariseLoop_valid_accept gen period region frequency medianScore
    (k + 1) (!(options.fallbackEnabled == some false)) 1 k t hg herr

/-- Witness for C6 at concrete inputs: a candidate with warnings but no
errors is returned verbatim on the first attempt. -/
theorem summariseWithAI_accepts_first_valid_witness :
    summariseWithAI
        (mkGenerator { apiKey := "key", maxRetries := none, retryDelay := none })
        "Last Week" "Neck" 2 5
        { maxRetries := none, retryDelay := none, fallbackEnabled := none,
          enableValidation := none }
        (fun _ => GenResult.success
          "Your neck hurt often: 2 painful entries, median 5/10.") =
      ⟨Except.ok "Your neck hurt often: 2 painful entries, median 5/10.", 1⟩ :=
  summariseWithAI_accepts_first_valid
    (mkGenerator { apiKey := "key", maxRetries := none, retryDelay := none })
    "Last Week" "Neck" 2 5
    { maxRetries := none, retryDelay := none, fallbackEnabled := none,
      enableValidation := none }
    (fun _ => GenResult.success
      "Your neck hurt often: 2 painful entries, median 5/10.")
    "Your neck hurt often: 2 painful entries, median 5/10."
    (by decide) (by decide) rfl (by decide)

/-- Counterexample to C2 as stated: with fallback disabled, one single
attempt, and a capability whose candidate fails validation, the run
returns the invalid candidate text instead of raising a terminal
failure (the source falls through to returning the summary when
neither the retry branch nor the fallback branch applies; only a
capability failure on the last attempt throws). -/
theorem summariseWithAI_fallback_disabled_counterexample :
    (summariseWithAI
        (mkGenerator { apiKey := "key", maxRetries := none, retryDelay := none })
        "Last Week" "Neck" 5 5
        { maxRetries := some 1, retryDelay := none, fallbackEnabled := some false,
          enableValidation := none }
        (fun _ => GenResult.success "bad")).result = Except.ok "bad"
    ∧ (validateSummary "bad" "Neck" 5 5 "Last Week").errors ≠ []
    ∧ ∀ e, (summariseWithAI
        (mkGenerator { apiKey := "key", maxRetries := none, retryDelay := none })
        "Last Week" "Neck" 5 5
        { maxRetries := some 1, retryDelay := none, fallbackEnabled := some false,
          enableValidation := none }
        (fun _ => GenResult.success "bad")).result ≠ Except.error e := by
  have h1 : (summariseWithAI
      (mkGenerator { apiKey := "key", maxRetries := none, retryDelay := none })
      "Last Week" "Neck" 5 5
      { maxRetries := some 1, retryDelay := none, fallbackEnabled := some false,
        enableValidation := none }
      (fun _ => GenResult.success "bad")).result = Except.ok "bad" := rfl
  refine ⟨h1, by decide, ?_⟩
  intro e he
  rw [h1] at he
  exact Except.noConfusion he

theorem summariseLoop_exhausts_to_last (gen : Nat → GenResult)
    (period region : String) (frequency : Nat) (medianScore : ℚ)
    (maxRetries : Nat) (t : String)
    (hlast : gen maxRetries = GenResult.success t)
    (herr : (validateSummary t region frequency medianScore period).errors ≠ []) :
    ∀ remaining attempt, 1 ≤ attempt → attempt + remaining = maxRetries + 1 →
      attempt ≤ maxRetries →
      (∀ i, attempt ≤ i → i < maxRetries →
        (∃ e, gen i = GenResult.failure e) ∨
        (∃ u, gen i = GenResult.success u ∧
          (validateSummary u region frequency medianScore period).errors ≠ [])) →
      (summariseLoop gen period region frequency medianScore maxRetries true
          false attempt remaining).result = Except.ok t := by
  intro remaining
  induction remaining with
  | zero =>
    intro attempt _ hsum hle _
    exfalso
    omega
  | succ remaining ih =>
    intro attempt h1 hsum hle hearlier
    by_cases hlt : attempt < maxRetries
    · rcases hearlier attempt le_rfl hlt with ⟨e, hf⟩ | ⟨u, hgu, heu⟩
      · rw [summariseLoop_failure_retry gen period region frequency medianScore
          maxRetries true false attempt remaining e hf (by omega)]
        exact ih (attempt + 1) (by omega) (by omega) (by omega)
          (fun i hi hilt => hearlier i (by omega) hilt)
      · rw [summariseLoop_invalid_retry gen period region frequency medianScore
          maxRetries false attempt remaining u hgu heu hlt]
        exact ih (attempt + 1) (by omega) (by omega) (by omega)
          (fun i hi hilt => hearlier i (by omega) hilt)
    · have heq : attempt = maxRetries := by omega
      subst heq
      rw [summariseLoop_invalid_last_nofallback gen period region frequency
        medianScore attempt attempt remaining t hlast herr hlt]

/-- C2 amended: with fallback disabled and validation enabled, when
every attempt before the last yields a capability failure or an
invalid candidate and the final attempt yields a candidate whose
verdict has at least one error, the run returns that invalid candidate
text; a terminal failure is raised only when the capability itself
fails on the final attempt. -/
theorem summariseWithAI_fallback_disabled_returns_invalid_candidate
    (state : GeneratorState) (period region : String) (frequency : Nat)
    (medianScore : ℚ) (options : SummaryOptions) (gen : Nat → GenResult)
    (t : String)
    (hfb : options.fallbackEnabled = some false)
    (henable : options.enableValidation ≠ some false)
    (hmax : 1 ≤ jsOrNat options.maxRetries state.maxRetries)
    (hearlier : ∀ i, 1 ≤ i → i < jsOrNat options.maxRetries state.maxRetries →
        (∃ e, gen i = GenResult.failure e) ∨
        (∃ u, gen i = GenResult.success u ∧
          (validateSummary u region frequency medianScore period).errors ≠ []))
    (hlast : gen (jsOrNat options.maxRetries state.maxRetries) =
        GenResult.success t)
    (herr : (validateSummary t region frequency medianScore period).errors ≠ []) :
    (summariseWithAI state period region frequency medianScore options gen).result
      = Except.ok t := by
  have hfB : (!(options.fallbackEnabled == some false)) = false := by
    rw [hfb]
    rfl
  simp only [summariseWithAI]
  rw [enableValidation_flag_true options henable, hfB]
  exact summariseLoop_exhausts_to_last gen period region frequency medianScore
    (jsOrNat options.maxRetries state.maxRetries) t hlast herr
    (jsOrNat options.maxRetries state.maxRetries) 1 (by omega) (by omega)
    (by omega) hearlier

/-- Witness for the amended C2 at concrete inputs: with fallback
disabled, a single attempt and an invalid candidate, the candidate is
returned. -/
theorem summariseWithAI_fallback_disabled_returns_invalid_candidate_witness :
    (summariseWithAI
        (mkGenerator { apiKey := "key", maxRetries := none, retryDelay := none })
        "This Month" "Shoulders" 4 6
        { maxRetries := some 1, retryDelay := none, fallbackEnabled := some false,
          enableValidation := none }
        (fun _ => GenResult.success "meh")).result = Except.ok "meh" :=
  summariseWithAI_fallback_disabled_returns_invalid_candidate
    (mkGenerator { apiKey := "key", maxRetries := none, retryDelay := none })
    "This Month" "Shoulders" 4 6
    { maxRetries := some 1, retryDelay := none, fallbackEnabled := some false,
      enableValidation := none }
    (fun _ => GenResult.success "meh") "meh"
    rfl (by decide) (by decide)
    (fun i h1 hlt => by
      have h : i < 1 := hlt
      omega)
    rfl (by decide)

/-- C9: an explicit zero passed for `maxRetries` or `retryDelay` is
falsy under the `||` coalescing, so it behaves exactly like leaving the
option unset and the instance values (3 attempts, 1000 time units for a
default-constructed instance) apply; the effective values are therefore
never zero. -/
theorem summariseWithAI_zero_options_use_defaults (config : Config)
    (options : SummaryOptions) (period region : String) (frequency : Nat)
    (medianScore : ℚ) (gen : Nat → GenResult) :
    (summariseWithAI (mkGenerator config) period region frequency medianScore
        { options with maxRetries := some 0, retryDelay := some 0 } gen =
      summariseWithAI (mkGenerator config) period region frequency medianScore
        { options with maxRetries := none, retryDelay := none } gen)
    ∧ (config.maxRetries = none → (mkGenerator config).maxRetries = 3)
    ∧ (config.retryDelay = none → (mkGenerator config).retryDelay = 1000)
    ∧ jsOrNat (some 0) (mkGenerator config).maxRetries =
        (mkGenerator config).maxRetries
    ∧ jsOrNat (some 0) (mkGenerator config).retryDelay =
        (mkGenerator config).retryDelay
    ∧ 0 < jsOrNat (some 0) (mkGenerator config).maxRetries
    ∧ 0 < jsOrNat (some 0) (mkGenerator config).retryDelay := by
  have hpos : ∀ (v : Option Nat) (d : Nat), 0 < d → 0 < jsOrNat v d := by
    intro v d hd
    match v with
    | none => exact hd
    | some n =>
      simp only [jsOrNat]
      by_cases hn : n = 0
      · simpa [hn] using hd
      · simpa [hn] using Nat.pos_of_ne_zero hn
  have hmk : 0 < (mkGenerator config).maxRetries :=
    hpos config.maxRetries 3 (by omega)
  have hrd : 0 < (mkGenerator config).retryDelay :=
    hpos config.retryDelay 1000 (by omega)
  refine ⟨rfl, fun h => by simp [mkGenerator, h, jsOrNat],
    fun h => by simp [mkGenerator, h, jsOrNat], rfl, rfl, ?_, ?_⟩
  · exact hmk
  · exact hrd

/-- Witness for C9 at concrete inputs: with a default-constructed
instance, passing zero for both options leaves 3 attempts and a
1000-unit delay in force. -/
theorem summariseWithAI_zero_options_use_defaults_witness :
    (mkGenerator { apiKey := "key", maxRetries := none, retryDelay := none
      }).maxRetries = 3
    ∧ (mkGenerator { apiKey := "key", maxRetries := none, retryDelay := none
      }).retryDelay = 1000 :=
  ⟨(summariseWithAI_zero_options_use_defaults
      { apiKey := "key", maxRetries := none, retryDelay := none }
      { maxRetries := none, retryDelay := none, fallbackEnabled := none,
        enableValidation := none }
      "Last Week" "Neck" 0 0 (fun _ => GenResult.success "x")).2.1 rfl,
   (summariseWithAI_zero_options_use_defaults
      { apiKey := "key", maxRetries := none, retryDelay := none }
      { maxRetries := none, retryDelay := none, fallbackEnabled := none,
        enableValidation := none }
      "Last Week" "Neck" 0 0 (fun _ => GenResult.success "x")).2.2.1 rfl⟩

end MapSummary
